import Mathlib

/-!
Verification of the StarBoard multi-tier data synchronization layer.

The source is a browser application (script.js) plus two server-side storage
functions (netlify/functions/starboard.js, supabase-starboard.js).  The
document values exchanged between the tiers are JSON-shaped JavaScript
values; we embed them as the inductive type `JSVal`.

Modelling conventions (stated once, used throughout):
* JavaScript numbers are modelled as integers (`Int`), plus a distinguished
  `vNaN` value so that `typeof x === 'number'` checks and NaN-producing
  coercions stay faithful; float-specific behaviour is outside the model.
* `undefined` is represented by `Option.none` at property-access sites
  (`getField` returns `Option JSVal`); objects are association lists in
  insertion order, property assignment replaces the first occurrence of a
  key or appends (JS semantics for plain objects).
* JSON round-tripping (`JSON.parse(JSON.stringify(v))`, used by the code for
  deep copies and for the localStorage cache) is `jsonRound`, which maps
  `NaN` to `null` (as JSON.stringify does) and is the identity elsewhere.
* Asynchronous local storage operations (IndexedDB `dbInit`/`dbSave`/`dbLoad`
  and `localStorage`) are modelled as total state updates: the spec treats
  local persistence as guaranteed, and all interleavings relevant to the
  claims are sequential (single-threaded event loop).
* Remote tiers are oracles in an `Env`: a load either fails (network error,
  non-ok status or malformed body, all of which the client collapses to
  "absent") or produces a body; a save either throws (`none`, caught and
  treated as not-saved) or reports `res.ok`.
-/

inductive JSVal where
  | vNull : JSVal
  | vBool : Bool → JSVal
  | vNum : Int → JSVal
  | vNaN : JSVal
  | vStr : String → JSVal
  | vObj : List (String × JSVal) → JSVal

open JSVal

/-- JavaScript truthiness of a value. -/
def truthy : JSVal → Bool
  | vNull => false
  | vBool b => b
  | vNum n => n != 0
  | vNaN => false
  | vStr s => s != ""
  | vObj _ => true

/-- `typeof v === 'object'` — true for real objects and for `null`. -/
def isObjOrNull : JSVal → Bool
  | vObj _ => true
  | vNull => true
  | _ => false

/-- A real (non-null) object. -/
def isStrictObj : JSVal → Bool
  | vObj _ => true
  | _ => false

/-- `typeof v === 'string'`. -/
def isStr : JSVal → Bool
  | vStr _ => true
  | _ => false

/-- `Object.entries(v)`: the own properties of an object, empty for
primitives (the code only applies it to values already known to be truthy
objects). -/
def entries : JSVal → List (String × JSVal)
  | vObj l => l
  | _ => []

def getFieldL : List (String × JSVal) → String → Option JSVal
  | [], _ => none
  | (k', v') :: t, k => if k' = k then some v' else getFieldL t k

/-- Property read `v[k]`: `none` models `undefined`. -/
def getField : JSVal → String → Option JSVal
  | vObj l, k => getFieldL l k
  | _, _ => none

/-- Property read defaulted to `null`; used only where the code's
subsequent checks (truthiness, `typeof ... === 'object'` under a
`hasOwnProperty` guard) do not distinguish `undefined` from `null`. -/
def getFieldD (v : JSVal) (k : String) : JSVal := (getField v k).getD vNull

/-- `Object.prototype.hasOwnProperty.call(v, k)`. -/
def hasOwn (v : JSVal) (k : String) : Bool := (getField v k).isSome

def setFieldL : List (String × JSVal) → String → JSVal → List (String × JSVal)
  | [], k, v => [(k, v)]
  | (k', v') :: t, k, v =>
      if k' = k then (k', v) :: t else (k', v') :: setFieldL t k v

/-- Property write `v[k] = x` on an object (replace first occurrence of the
key, else append); a write to a primitive is silently ignored, as in
non-strict JS. -/
def setField : JSVal → String → JSVal → JSVal
  | vObj l, k, v => vObj (setFieldL l k v)
  | d, _, _ => d

/-- Chained property read `v[k1][k2]...`. -/
def getPath : JSVal → List String → Option JSVal
  | v, [] => some v
  | v, k :: ks =>
      match getField v k with
      | some sub => getPath sub ks
      | none => none

/-- Chained property write `v[k1][k2]... = x` (the code only uses it on
paths it has just read successfully). -/
def setPath : JSVal → List String → JSVal → JSVal
  | _, [], nv => nv
  | v, k :: ks, nv => setField v k (setPath (getFieldD v k) ks nv)

/-- Every prefix of the path resolves to a value. -/
def PathChain : JSVal → List String → Prop
  | _, [] => True
  | v, k :: ks => ∃ sub, getField v k = some sub ∧ PathChain sub ks

mutual

/-- `JSON.parse(JSON.stringify(v))`: identity except that `NaN`
serializes to `null`. -/
def jsonRound : JSVal → JSVal
  | vNaN => vNull
  | vObj l => vObj (jsonRoundL l)
  | v => v

def jsonRoundL : List (String × JSVal) → List (String × JSVal)
  | [] => []
  | (k, v) :: t => (k, jsonRound v) :: jsonRoundL t

end

/-- JS addition `x + n` of a possibly-undefined value and an integer
(used by `modifyStars`: `student.stars + amount`). -/
def jsPlus (x : Option JSVal) (n : Int) : JSVal :=
  match x with
  | none => vNaN
  | some (vNum m) => vNum (m + n)
  | some vNaN => vNaN
  | some (vStr s) => vStr (s ++ toString n)
  | some (vBool true) => vNum (1 + n)
  | some (vBool false) => vNum n
  | some vNull => vNum n
  | some (vObj _) => vStr ("[object Object]" ++ toString n)

/-- Decimal-digit fragment of JS string-to-number coercion (enough for the
values the program can produce; other strings coerce to NaN). -/
def strToNum (s : String) : Option Int :=
  if s = "" then some 0
  else if s.toList.all Char.isDigit then some ((s.toNat?).getD 0)
  else none

/-- `Math.max(0, x)` with JS number coercion of `x`. -/
def jsMathMax0 : JSVal → JSVal
  | vNum m => vNum (max 0 m)
  | vNaN => vNaN
  | vNull => vNum 0
  | vBool true => vNum 1
  | vBool false => vNum 0
  | vStr s =>
      match strToNum s with
      | some m => vNum (max 0 m)
      | none => vNaN
  | vObj _ => vNaN

/-- JS `x + 1` for the already-truthy-or-zero operand produced by
`(data.metadata?.backupCount || 0)`. -/
def jsAddOne : JSVal → JSVal
  | vNum n => vNum (n + 1)
  | vNaN => vNaN
  | vStr s => vStr (s ++ "1")
  | vBool true => vNum 2
  | vBool false => vNum 1
  | vNull => vNum 1
  | vObj _ => vStr "[object Object]1"

/-- `(data.metadata?.backupCount || 0)` from `saveData`. -/
def priorBackupCount (d : JSVal) : JSVal :=
  match (getField d "metadata").bind (fun m => getField m "backupCount") with
  | none => vNum 0
  | some v => if truthy v then v else vNum 0

/-- `createDefaultData()` from script.js. -/
def createDefaultData (now : String) : JSVal :=
  vObj [("classes", vObj []),
        ("teachers", vObj [("teacher", vStr "starboard")]),
        ("settings", vObj [("theme", vStr "dark"),
                           ("soundEnabled", vBool true),
                           ("autoBackup", vBool true)]),
        ("metadata", vObj [("version", vStr "2.0"),
                           ("created", vStr now),
                           ("lastModified", vStr now),
                           ("backupCount", vNum 0)])]

/-- One student entry of the validator:
`!student.name || typeof student.stars !== 'number' || student.stars < 0`
rejects. -/
def validStudentEntry (s : JSVal) : Bool :=
  truthy (getFieldD s "name") &&
  (match getField s "stars" with
   | some (vNum n) => !(n < 0)
   | some vNaN => true
   | _ => false)

/-- One class entry of the validator:
`!classData.students || typeof classData.students !== 'object'` rejects,
then every student entry is checked. -/
def validClassEntry (cd : JSVal) : Bool :=
  truthy (getFieldD cd "students") &&
  isObjOrNull (getFieldD cd "students") &&
  (entries (getFieldD cd "students")).all (fun kv => validStudentEntry kv.2)

/-- The required-properties loop of the validator:
`classes`, `teachers`, `settings` must exist and have `typeof 'object'`. -/
def requiredPropsOk (d : JSVal) : Bool :=
  (["classes", "teachers", "settings"] : List String).all
    (fun p => hasOwn d p && isObjOrNull (getFieldD d p))

/-- The `if (data.classes) { ... }` loop of the validator. -/
def classesOk (d : JSVal) : Bool :=
  if truthy (getFieldD d "classes") then
    (entries (getFieldD d "classes")).all (fun kv => validClassEntry kv.2)
  else true

/-- The `if (data.teachers) { ... }` loop of the validator (entry keys are
always strings; the value must be a string). -/
def teachersOk (d : JSVal) : Bool :=
  if truthy (getFieldD d "teachers") then
    (entries (getFieldD d "teachers")).all (fun kv => isStr kv.2)
  else true

/-- `validateDataStructure(data)` from script.js (the Schema Validator). -/
def validateDataStructure (data : JSVal) : Bool :=
  truthy data && isObjOrNull data &&
  requiredPropsOk data &&
  classesOk data &&
  teachersOk data

/-! ## Spec-side predicates for claim C2

`specValidClaim` is the claim's wording taken literally ("classes, teachers,
settings are objects; every student has a non-empty string name and numeric
stars ≥ 0"); `specValidAmended` is that wording amended only where the code
forces it (typeof-object admits null; a truthy — not necessarily string —
name; stars of number type not less than 0, which admits NaN). -/

/-- Claim C2's student condition, literally: non-empty string `name` and
numeric `stars ≥ 0`. -/
def specStudentOkClaim (s : JSVal) : Bool :=
  (match getField s "name" with
   | some (vStr nm) => nm != ""
   | _ => false) &&
  (match getField s "stars" with
   | some (vNum n) => decide (0 ≤ n)
   | _ => false)

/-- Claim C2, literally: candidate is an object whose `classes`, `teachers`,
`settings` are objects; every class entry has a `students` object; every
student entry satisfies `specStudentOkClaim`; every teachers value is a
string. -/
def specValidClaim (c : JSVal) : Bool :=
  isStrictObj c &&
  isStrictObj (getFieldD c "classes") &&
  isStrictObj (getFieldD c "teachers") &&
  isStrictObj (getFieldD c "settings") &&
  (entries (getFieldD c "classes")).all (fun kv =>
     match getField kv.2 "students" with
     | some (vObj studs) => studs.all (fun skv => specStudentOkClaim skv.2)
     | _ => false) &&
  (entries (getFieldD c "teachers")).all (fun kv => isStr kv.2)

/-- The amended student condition: a truthy `name` and a `stars` of number
type that is not less than 0 (NaN included). -/
def specStudentOkAmended (s : JSVal) : Bool :=
  truthy (getFieldD s "name") &&
  (match getField s "stars" with
   | some (vNum n) => decide (0 ≤ n)
   | some vNaN => true
   | _ => false)

/-- The amended class condition: `students` is a real object and every
student entry satisfies `specStudentOkAmended`. -/
def specStudentsOkAmended (cd : JSVal) : Bool :=
  match getField cd "students" with
  | some (vObj studs) => studs.all (fun skv => specStudentOkAmended skv.2)
  | _ => false

/-- Claim C2 amended: candidate is a non-null object with `classes`,
`teachers`, `settings` present of typeof `'object'` (a real object or
`null`); every class entry satisfies the amended class condition; every
teachers value is a string (entries of a null/primitive map are empty). -/
def specValidAmended (c : JSVal) : Bool :=
  match c with
  | vObj _ =>
      (hasOwn c "classes" && isObjOrNull (getFieldD c "classes")) &&
      (hasOwn c "teachers" && isObjOrNull (getFieldD c "teachers")) &&
      (hasOwn c "settings" && isObjOrNull (getFieldD c "settings")) &&
      (entries (getFieldD c "classes")).all (fun kv => specStudentsOkAmended kv.2) &&
      (entries (getFieldD c "teachers")).all (fun kv => isStr kv.2)
  | _ => false

/-! ## Remote tier server handlers (netlify functions)

Both functions' PUT branches parse the request body and apply only the
"lightweight validation" `!parsed || typeof parsed !== 'object' ||
!parsed.classes` before storing the parsed document wholesale.  The body is
modelled post-`JSON.parse`; `storeOk` models whether the backing store
(`store.setJSON` / supabase `upsert`) succeeds — when it throws, the outer
catch returns a 500 and nothing is stored. -/

/-- The lightweight check shared by both PUT handlers. -/
def lightweightOk (parsed : JSVal) : Bool :=
  truthy parsed && isObjOrNull parsed && truthy (getFieldD parsed "classes")

/-- PUT branch of netlify/functions/starboard.js: status code and the
resulting stored blob. -/
def blobHandlerPut (storeOk : Bool) (parsed : JSVal) (store : Option JSVal) :
    Nat × Option JSVal :=
  if lightweightOk parsed then
    if storeOk then (200, some parsed) else (500, store)
  else (400, store)

/-- PUT branch of netlify/functions/supabase-starboard.js: status code and
the resulting `starboard_data` row for id `'main'`. -/
def supabaseHandlerPut (storeOk : Bool) (parsed : JSVal) (row : Option JSVal) :
    Nat × Option JSVal :=
  if lightweightOk parsed then
    if storeOk then (200, some parsed) else (500, row)
  else (400, row)

/-! ## Sync orchestrator -/

/-- Outcome of a remote GET as the client sees it: network errors, non-ok
statuses and unparsable bodies are all collapsed to `err` by the
client-side try/catch. -/
inductive RemoteLoad where
  | err : RemoteLoad
  | ok : JSVal → RemoteLoad

/-- A storage tier of the cascade. -/
inductive Tier where
  | primary : Tier
  | legacy : Tier
deriving DecidableEq

/-- The environment of one orchestrator operation: remote tier responses
and the wall clock (`new Date().toISOString()`). -/
structure Env where
  supLoad : RemoteLoad
  netLoad : RemoteLoad
  supSave : Option Bool
  netSave : Option Bool
  now : String

/-- The orchestrator's storage state: the in-memory authoritative copy
(`this.memoryCache`), the IndexedDB record, and the localStorage cache
(stored JSON-serialized; modelled as the parsed value, which the
`jsonRound` applied at write sites keeps faithful). -/
structure SBState where
  memoryCache : Option JSVal
  db : Option JSVal
  localStore : Option JSVal

/-- `tryLoadFromSupabase()`: absent unless the transport succeeds and the
body passes the Schema Validator. -/
def tryLoadFromSupabase (env : Env) : Option JSVal :=
  match env.supLoad with
  | RemoteLoad.ok body => if validateDataStructure body then some body else none
  | RemoteLoad.err => none

/-- `tryLoadFromNetlify()`: same shape against the legacy tier. -/
def tryLoadFromNetlify (env : Env) : Option JSVal :=
  match env.netLoad with
  | RemoteLoad.ok body => if validateDataStructure body then some body else none
  | RemoteLoad.err => none

/-- `trySaveToSupabase()`: `res.ok`, with a thrown fetch caught and
reported as `false`. -/
def trySaveToSupabase (env : Env) : Bool := env.supSave.getD false

/-- `trySaveToNetlify()`: same shape against the legacy tier. -/
def trySaveToNetlify (env : Env) : Bool := env.netSave.getD false

/-- `getDataFromLocalStorage()`: absent or invalid cache content falls back
to a fresh default document. -/
def getDataFromLocalStorage (now : String) (ls : Option JSVal) : JSVal :=
  match ls with
  | none => createDefaultData now
  | some v => if validateDataStructure v then v else createDefaultData now

/-- `getData()`: serve the in-memory copy synchronously; defensively fall
back to the localStorage cache, adopting it and mirroring it to IndexedDB
(the fire-and-forget `dbSave` is modelled as having completed). -/
def getData (now : String) (st : SBState) : JSVal × SBState :=
  match st.memoryCache with
  | some d => (d, st)
  | none =>
      let c := getDataFromLocalStorage now st.localStore
      (c, { st with memoryCache := some c, db := some c })

/-- Result of `saveData`: the returned boolean, the new storage state, the
final value of the caller's (in-place mutated) argument object, and which
remote tiers a write was attempted against. -/
structure SaveOut where
  ok : Bool
  state : SBState
  doc : JSVal
  remotesTried : List Tier

/-- `saveData(data)` from script.js: validate, stamp a fresh `metadata`
object onto the argument, deep-copy it into the memory cache, try the
primary then the legacy remote tier, fall back to IndexedDB if both
failed, and always refresh the localStorage cache. -/
def saveData (env : Env) (st : SBState) (data : JSVal) : SaveOut :=
  if validateDataStructure data then
    let stamped := setField data "metadata"
        (vObj [("lastModified", vStr env.now),
               ("version", vStr "2.0"),
               ("backupCount", jsAddOne (priorBackupCount data))])
    let mc := jsonRound stamped
    let savedPrimary := trySaveToSupabase env
    let saved := savedPrimary || trySaveToNetlify env
    { ok := true
      state := { memoryCache := some mc
                 db := if saved then st.db else some mc
                 localStore := some mc }
      doc := stamped
      remotesTried := if savedPrimary then [Tier.primary] else [Tier.primary, Tier.legacy] }
  else
    { ok := false, state := st, doc := data, remotesTried := [] }

/-- `initializeDataStorage()` from script.js: primary remote, then legacy
remote, then IndexedDB, then a freshly constructed default document.
Also returns the list of remote tiers that were queried. -/
def initializeDataStorage (env : Env) (st : SBState) : SBState × List Tier :=
  match tryLoadFromSupabase env with
  | some d =>
      ({ memoryCache := some d, db := some d, localStore := some (jsonRound d) },
       [Tier.primary])
  | none =>
      match tryLoadFromNetlify env with
      | some d =>
          ({ memoryCache := some d, db := some d, localStore := some (jsonRound d) },
           [Tier.primary, Tier.legacy])
      | none =>
          match st.db with
          | some existing =>
              ({ st with memoryCache := some existing }, [Tier.primary, Tier.legacy])
          | none =>
              let dd := createDefaultData env.now
              ({ st with memoryCache := some dd, db := some dd },
               [Tier.primary, Tier.legacy])

/-- `modifyStars(studentId, amount)` from script.js: read the document via
`getData`, clamp-update the student's stars in place (the document is the
memory cache itself, so the mutation lands in the authoritative copy
immediately), then `saveData`.  `none` models the TypeError thrown when an
intermediate property chain link is `undefined`/`null`. -/
def modifyStars (env : Env) (st : SBState) (currentClass studentId : String)
    (amount : Int) : Option SBState :=
  let p := getData env.now st
  let data := p.1
  let st1 := p.2
  match getField data "classes" with
  | none => none
  | some cs =>
      match getField cs currentClass with
      | none => none
      | some cd =>
          match getField cd "students" with
          | none => none
          | some studs =>
              match getField studs studentId with
              | none => some st1
              | some student =>
                  if truthy student then
                    let newStars := jsMathMax0 (jsPlus (getField student "stars") amount)
                    let mutated := setPath data
                        ["classes", currentClass, "students", studentId, "stars"] newStars
                    let st2 := { st1 with memoryCache := some mutated }
                    some (saveData env st2 mutated).state
                  else some st1

/-! ## Reference-level model of `getData` for the aliasing claim (C9)

`getData()` returns `this.memoryCache` itself, not a copy.  To state that,
documents live in a heap of cells and `memoryCache` holds an address; the
value model above is the same code with the aliasing resolved away. -/

/-- Heap-level orchestrator state: a heap of document cells, the address
held by `this.memoryCache`, and the two local stores. -/
structure RefState where
  heap : List JSVal
  memRef : Option Nat
  localStore : Option JSVal
  db : Option JSVal

def heapGet (h : List JSVal) (r : Nat) : JSVal := h.getD r vNull

/-- `getData()` at heap level: with a memory cache present it returns the
stored address itself (`return this.memoryCache`); otherwise it adopts the
localStorage fallback into a fresh cell. -/
def getDataR (now : String) (st : RefState) : Nat × RefState :=
  match st.memRef with
  | some r => (r, st)
  | none =>
      let c := getDataFromLocalStorage now st.localStore
      let addr := st.heap.length
      (addr, { st with heap := st.heap ++ [c], memRef := some addr, db := some c })

/-- The document the orchestrator currently trusts. -/
def authoritative (st : RefState) : Option JSVal :=
  st.memRef.map (heapGet st.heap)

/-- A caller mutating the object behind address `r` along a property path
(e.g. `student.stars = ...` deep inside the document). -/
def heapWrite (st : RefState) (r : Nat) (p : List String) (v : JSVal) : RefState :=
  { st with heap := st.heap.set r (setPath (heapGet st.heap r) p v) }

/-! ## Helper lemmas -/

theorem getFieldL_setFieldL_self (l : List (String × JSVal)) (k : String) (v : JSVal) :
    getFieldL (setFieldL l k v) k = some v := by
  induction l with
  | nil => simp [setFieldL, getFieldL]
  | cons hd t ih =>
      obtain ⟨k9, v9⟩ := hd
      by_cases h : k9 = k
      · simp [setFieldL, getFieldL, h]
      · simp [setFieldL, getFieldL, h, ih]

theorem getFieldL_setFieldL_ne (l : List (String × JSVal)) (k k' : String) (v : JSVal)
    (h : k' ≠ k) : getFieldL (setFieldL l k v) k' = getFieldL l k' := by
  have h2 : ¬ (k = k') := fun hh => h hh.symm
  induction l with
  | nil => simp [setFieldL, getFieldL, h2]
  | cons hd t ih =>
      obtain ⟨k9, v9⟩ := hd
      by_cases h3 : k9 = k
      · subst h3
        simp [setFieldL, getFieldL, h2]
      · simp [setFieldL, getFieldL, h3, ih]

theorem getField_setField_ne (d : JSVal) (k k' : String) (v : JSVal) (h : k' ≠ k) :
    getField (setField d k v) k' = getField d k' := by
  cases d <;> simp [setField, getField, getFieldL_setFieldL_ne _ _ _ _ h]

theorem getField_isObj {d : JSVal} {k : String} {v : JSVal}
    (h : getField d k = some v) : ∃ l, d = vObj l := by
  cases d <;> simp [getField] at h <;> exact ⟨_, rfl⟩

theorem getField_setField_self {d : JSVal} {l : List (String × JSVal)}
    (hd : d = vObj l) (k : String) (v : JSVal) :
    getField (setField d k v) k = some v := by
  subst hd
  simp [setField, getField, getFieldL_setFieldL_self]

theorem validate_isObj {d : JSVal} (h : validateDataStructure d = true) :
    ∃ l, d = vObj l := by
  cases d <;> simp [validateDataStructure, truthy, isObjOrNull] at h <;> exact ⟨_, rfl⟩

theorem entries_of_not_truthy {v : JSVal} (h : truthy v = false) : entries v = [] := by
  cases v <;> simp_all [truthy, entries]

theorem getFieldL_jsonRoundL (l : List (String × JSVal)) (k : String) :
    getFieldL (jsonRoundL l) k = (getFieldL l k).map jsonRound := by
  induction l with
  | nil => simp [jsonRoundL, getFieldL]
  | cons hd t ih =>
      obtain ⟨k9, v9⟩ := hd
      by_cases h : k9 = k
      · simp [jsonRoundL, getFieldL, h]
      · simp [jsonRoundL, getFieldL, h, ih]

theorem getField_jsonRound (v : JSVal) (k : String) :
    getField (jsonRound v) k = (getField v k).map jsonRound := by
  cases v <;> simp [jsonRound, getField, getFieldL_jsonRoundL]

theorem getPath_jsonRound (p : List String) (v : JSVal) :
    getPath (jsonRound v) p = (getPath v p).map jsonRound := by
  induction p generalizing v with
  | nil => simp [getPath]
  | cons k ks ih =>
      simp only [getPath, getField_jsonRound]
      cases h : getField v k with
      | none => simp
      | some sub => simp [ih]

theorem jsonRoundL_setFieldL (l : List (String × JSVal)) (k : String) (v : JSVal) :
    jsonRoundL (setFieldL l k v) = setFieldL (jsonRoundL l) k (jsonRound v) := by
  induction l with
  | nil => simp [setFieldL, jsonRoundL]
  | cons hd t ih =>
      obtain ⟨k9, v9⟩ := hd
      by_cases h : k9 = k
      · simp [setFieldL, jsonRoundL, h]
      · simp [setFieldL, jsonRoundL, h, ih]

theorem jsonRound_setField (d : JSVal) (k : String) (v : JSVal) :
    jsonRound (setField d k v) = setField (jsonRound d) k (jsonRound v) := by
  cases d <;> simp [setField, jsonRound, jsonRoundL_setFieldL]

theorem getPath_setPath (nv : JSVal) :
    ∀ (p : List String) (v : JSVal), PathChain v p →
      getPath (setPath v p nv) p = some nv := by
  intro p
  induction p with
  | nil => intro v _; simp [setPath, getPath]
  | cons k ks ih =>
      intro v hc
      obtain ⟨sub, hs, hrest⟩ := hc
      obtain ⟨l, hl⟩ := getField_isObj hs
      have hd : getFieldD v k = sub := by simp [getFieldD, hs]
      simp only [setPath, getPath, hd,
        getField_setField_self hl k (setPath sub ks nv)]
      exact ih sub hrest

theorem getD_set_self (l : List JSVal) (r : Nat) (x : JSVal) (h : r < l.length) :
    (l.set r x).getD r vNull = x := by
  induction l generalizing r with
  | nil => simp at h
  | cons hd t ih =>
      cases r with
      | zero => simp [List.set, List.getD]
      | succ r9 =>
          simp only [List.set, List.getD, List.getElem?_cons_succ]
          have := ih r9 (by simpa using h)
          simpa [List.getD] using this

theorem validStudentEntry_eq (s : JSVal) :
    validStudentEntry s = specStudentOkAmended s := by
  unfold validStudentEntry specStudentOkAmended
  cases h : getField s "stars" with
  | none => simp [h]
  | some v =>
      cases v with
      | vNum n =>
          have h2 : (!decide (n < 0)) = decide (0 ≤ n) := by
            rw [← decide_not]
            exact decide_eq_decide.mpr Int.not_lt
          simp [h, h2]
      | vNaN => simp [h]
      | vNull => simp [h]
      | vBool b => simp [h]
      | vStr s9 => simp [h]
      | vObj l => simp [h]

theorem validClassEntry_eq (cd : JSVal) :
    validClassEntry cd = specStudentsOkAmended cd := by
  unfold validClassEntry specStudentsOkAmended
  cases h : getField cd "students" with
  | none => simp [getFieldD, h, truthy]
  | some v =>
      cases v with
      | vObj l =>
          simp [getFieldD, h, truthy, isObjOrNull, entries, validStudentEntry_eq]
      | vNull => simp [getFieldD, h, truthy]
      | vBool b => cases b <;> simp [getFieldD, h, truthy, isObjOrNull]
      | vNum n => simp [getFieldD, h, truthy, isObjOrNull]
      | vNaN => simp [getFieldD, h, truthy]
      | vStr s9 => simp [getFieldD, h, truthy, isObjOrNull]

theorem classesOk_unconditional (d : JSVal) :
    classesOk d =
      (entries (getFieldD d "classes")).all (fun kv => validClassEntry kv.2) := by
  unfold classesOk
  cases h : truthy (getFieldD d "classes") with
  | false => rw [entries_of_not_truthy h]; simp
  | true => simp

theorem teachersOk_unconditional (d : JSVal) :
    teachersOk d =
      (entries (getFieldD d "teachers")).all (fun kv => isStr kv.2) := by
  unfold teachersOk
  cases h : truthy (getFieldD d "teachers") with
  | false => rw [entries_of_not_truthy h]; simp
  | true => simp

/-- C2 (amended): `validateDataStructure` returns true iff the candidate is
a non-null object whose `classes`, `teachers`, `settings` are present with
typeof `'object'` (object or null); every class entry has a truthy
`students` object whose entries each have a truthy `name` and a `stars` of
number type not less than 0; and every `teachers` value is a string. -/
theorem validate_eq_specValidAmended (c : JSVal) :
    validateDataStructure c = specValidAmended c := by
  cases c with
  | vObj l =>
      unfold validateDataStructure specValidAmended
      rw [classesOk_unconditional, teachersOk_unconditional]
      rw [funext fun kv : String × JSVal => validClassEntry_eq kv.2]
      simp [truthy, isObjOrNull, requiredPropsOk, Bool.and_assoc]
  | vNull => rfl
  | vNaN => rfl
  | vBool b => simp [validateDataStructure, specValidAmended, truthy, isObjOrNull]
  | vNum n => simp [validateDataStructure, specValidAmended, truthy, isObjOrNull]
  | vStr s => simp [validateDataStructure, specValidAmended, truthy, isObjOrNull]

/-- The concrete candidate refuting claim C2 as stated: `classes` is
`null`, which has typeof `'object'` and an empty entries list, so the
validator accepts it although `null` is not an object. -/
def c2cex : JSVal :=
  vObj [("classes", vNull), ("teachers", vObj []), ("settings", vObj [])]

/-- C2 (counterexample): the validator accepts a candidate whose `classes`
property is `null`, while the claim's condition ("classes, teachers and
settings are objects") rejects it — so `validate` is not equivalent to the
claimed predicate. -/
theorem validate_accepts_null_classes_cex :
    validateDataStructure c2cex = true ∧ specValidClaim c2cex = false := by
  constructor <;> rfl

theorem getPath_two {d m v : JSVal} {k1 k2 : String}
    (h1 : getField d k1 = some m) (h2 : getField m k2 = some v) :
    getPath d [k1, k2] = some v := by
  simp [getPath, h1, h2]

theorem getPath_two_none {d m : JSVal} {k1 k2 : String}
    (h1 : getField d k1 = some m) (h2 : getField m k2 = none) :
    getPath d [k1, k2] = none := by
  simp [getPath, h1, h2]

theorem priorBackupCount_num {D : JSVal} {n : Int}
    (h : getPath D ["metadata", "backupCount"] = some (vNum n)) :
    jsAddOne (priorBackupCount D) = vNum (n + 1) := by
  unfold priorBackupCount
  cases hm : getField D "metadata" with
  | none => simp [getPath, hm] at h
  | some m =>
      cases hb : getField m "backupCount" with
      | none => simp [getPath, hm, hb] at h
      | some v =>
          have hv2 : v = vNum n := by simpa [getPath, hm, hb] using h
          subst hv2
          by_cases hn : n = 0
          · subst hn
            simp [hm, hb, truthy, jsAddOne]
          · simp [hm, hb, truthy, hn, jsAddOne]

theorem getData_mem (now : String) (st : SBState) (d : JSVal)
    (h : st.memoryCache = some d) : getData now st = (d, st) := by
  simp [getData, h]

theorem saveData_memoryCache (env : Env) (st : SBState) (D : JSVal)
    (hv : validateDataStructure D = true) :
    (saveData env st D).state.memoryCache =
      some (jsonRound (setField D "metadata"
        (vObj [("lastModified", vStr env.now), ("version", vStr "2.0"),
               ("backupCount", jsAddOne (priorBackupCount D))]))) := by
  simp [saveData, hv]

/-- A fully failing environment: both remote loads error out, both remote
saves report not-ok; used as the concrete environment of witnesses. -/
def envAllFail : Env :=
  { supLoad := RemoteLoad.err, netLoad := RemoteLoad.err,
    supSave := some false, netSave := some false,
    now := "2026-01-01T00:00:00.000Z" }

/-- The empty starting state: nothing in memory, IndexedDB or
localStorage. -/
def st0 : SBState := { memoryCache := none, db := none, localStore := none }

/-- C3: a document failing the Schema Validator is rejected by `saveData`
with no side effects — the result is `false`, the storage state is
untouched, the caller's object is untouched, and no remote tier write is
attempted. -/
theorem saveData_invalid_rejects (env : Env) (st : SBState) (D : JSVal)
    (h : validateDataStructure D = false) :
    saveData env st D = ⟨false, st, D, []⟩ := by
  simp [saveData, h]

/-- Witness for C3 at the concrete invalid document `null`. -/
theorem saveData_invalid_rejects_witness :
    validateDataStructure vNull = false ∧
    saveData envAllFail st0 vNull = ⟨false, st0, vNull, []⟩ :=
  ⟨rfl, saveData_invalid_rejects envAllFail st0 vNull rfl⟩

/-- C4: `saveData` reports success exactly when the document passes the
Schema Validator, for every combination of remote-tier outcomes (both
saves failing, throwing, or succeeding): remote failures are never fatal,
and validation failure is the only failure condition. -/
theorem saveData_ok_iff_valid (env : Env) (st : SBState) (D : JSVal) :
    (saveData env st D).ok = validateDataStructure D := by
  cases h : validateDataStructure D <;> simp [saveData, h]

/-! ### Claim C1: save/load round trip -/

/-- Claim C1's relation, literally: the two documents agree everywhere
except possibly at the stamped metadata fields `lastModified`, `version`,
`backupCount`. -/
def EqExceptStamped (d1 d2 : JSVal) : Prop :=
  (∀ k, k ≠ "metadata" → getField d1 k = getField d2 k) ∧
  (∀ k, k ≠ "lastModified" → k ≠ "version" → k ≠ "backupCount" →
     getPath d1 ["metadata", k] = getPath d2 ["metadata", k])

/-- A valid document whose metadata carries a `created` field; `saveData`
rebuilds the metadata object from scratch, so `created` does not survive
the round trip. -/
def c1doc : JSVal :=
  vObj [("classes", vObj []), ("teachers", vObj []), ("settings", vObj []),
        ("metadata", vObj [("created", vStr "t0"), ("backupCount", vNum 3)])]

/-- C1 (counterexample): for the valid document `c1doc`, the document
returned by `getData()` right after `saveData(c1doc)` is NOT deep-equal to
`c1doc` outside the three stamped metadata fields — `metadata.created` has
been dropped. -/
theorem saveData_drops_created_cex :
    validateDataStructure c1doc = true ∧
    ¬ EqExceptStamped c1doc
        (getData envAllFail.now (saveData envAllFail st0 c1doc).state).1 := by
  refine ⟨rfl, fun h => ?_⟩
  have hmc := saveData_memoryCache envAllFail st0 c1doc rfl
  have h2 := h.2 "created" (by decide) (by decide) (by decide)
  rw [getData_mem envAllFail.now _ _ hmc] at h2
  rw [getPath_jsonRound] at h2
  rw [show getPath (setField c1doc "metadata"
        (vObj [("lastModified", vStr envAllFail.now), ("version", vStr "2.0"),
               ("backupCount", jsAddOne (priorBackupCount c1doc))]))
        ["metadata", "created"] = none from rfl] at h2
  rw [show getPath c1doc ["metadata", "created"] = some (vStr "t0") from rfl] at h2
  exact Option.noConfusion h2

/-- C1 (amended): for a JSON-stable valid document `D` with a numeric prior
`metadata.backupCount = n`, `saveData(D)` succeeds and a subsequent
`getData()` returns `D` with its `metadata` object replaced wholesale by
the freshly stamped `{lastModified, version, backupCount}` object; all
fields outside `metadata` are unchanged and the new `backupCount` is
`n + 1`. -/
theorem saveData_then_getData (env : Env) (st : SBState) (D : JSVal) (n : Int)
    (hv : validateDataStructure D = true)
    (hj : jsonRound D = D)
    (hbc : getPath D ["metadata", "backupCount"] = some (vNum n)) :
    (saveData env st D).ok = true ∧
    (getData env.now (saveData env st D).state).1 =
      setField D "metadata"
        (vObj [("lastModified", vStr env.now), ("version", vStr "2.0"),
               ("backupCount", vNum (n + 1))]) ∧
    (∀ k, k ≠ "metadata" →
       getField (getData env.now (saveData env st D).state).1 k = getField D k) ∧
    getPath (getData env.now (saveData env st D).state).1
        ["metadata", "backupCount"] = some (vNum (n + 1)) := by
  obtain ⟨l, hl⟩ := validate_isObj hv
  have hbc2 : jsAddOne (priorBackupCount D) = vNum (n + 1) := priorBackupCount_num hbc
  have hg : (getData env.now (saveData env st D).state).1 =
      setField D "metadata"
        (vObj [("lastModified", vStr env.now), ("version", vStr "2.0"),
               ("backupCount", vNum (n + 1))]) := by
    simp only [saveData, hv, if_pos, getData]
    rw [hbc2, jsonRound_setField, hj]
    simp [jsonRound, jsonRoundL]
  refine ⟨by simp [saveData, hv], hg, ?_, ?_⟩
  · intro k hk
    rw [hg]
    exact getField_setField_ne D "metadata" k _ hk
  · rw [hg]
    exact getPath_two (getField_setField_self hl _ _) rfl

/-- Witness for C1 (amended) at a concrete valid document. -/
theorem saveData_then_getData_witness :
    (validateDataStructure c1doc = true ∧ jsonRound c1doc = c1doc ∧
       getPath c1doc ["metadata", "backupCount"] = some (vNum 3)) ∧
    ((saveData envAllFail st0 c1doc).ok = true ∧
     (getData envAllFail.now (saveData envAllFail st0 c1doc).state).1 =
       setField c1doc "metadata"
         (vObj [("lastModified", vStr envAllFail.now), ("version", vStr "2.0"),
                ("backupCount", vNum (3 + 1))]) ∧
     (∀ k, k ≠ "metadata" →
        getField (getData envAllFail.now
          (saveData envAllFail st0 c1doc).state).1 k = getField c1doc k) ∧
     getPath (getData envAllFail.now (saveData envAllFail st0 c1doc).state).1
         ["metadata", "backupCount"] = some (vNum (3 + 1))) :=
  ⟨⟨rfl, by simp [c1doc, jsonRound, jsonRoundL], rfl⟩,
   saveData_then_getData envAllFail st0 c1doc 3 rfl
     (by simp [c1doc, jsonRound, jsonRoundL]) rfl⟩

/-! ### Claim C10: in-place metadata replacement -/

/-- C10: for a valid document, `saveData` rebuilds the argument's
`metadata` in place as exactly `{lastModified, version, backupCount}` —
any other metadata field (such as `created`) is gone from the caller's
object and from the stored copy — and the new authoritative copy is the
deep copy of that mutated argument. -/
theorem saveData_replaces_metadata (env : Env) (st : SBState) (D : JSVal)
    (hv : validateDataStructure D = true) :
    getField (saveData env st D).doc "metadata" =
      some (vObj [("lastModified", vStr env.now), ("version", vStr "2.0"),
                  ("backupCount", jsAddOne (priorBackupCount D))]) ∧
    getPath (saveData env st D).doc ["metadata", "created"] = none ∧
    (saveData env st D).state.memoryCache = some (jsonRound (saveData env st D).doc) ∧
    (∀ k, k ≠ "metadata" → getField (saveData env st D).doc k = getField D k) := by
  obtain ⟨l, hl⟩ := validate_isObj hv
  have hdoc : (saveData env st D).doc =
      setField D "metadata"
        (vObj [("lastModified", vStr env.now), ("version", vStr "2.0"),
               ("backupCount", jsAddOne (priorBackupCount D))]) := by
    simp [saveData, hv]
  refine ⟨?_, ?_, ?_, ?_⟩
  · rw [hdoc]; exact getField_setField_self hl _ _
  · rw [hdoc]
    exact getPath_two_none (getField_setField_self hl _ _) rfl
  · simp [saveData, hv]
  · intro k hk
    rw [hdoc]
    exact getField_setField_ne D "metadata" k _ hk

/-- A valid document with a `metadata.created` field, for the C10
witness. -/
def c10doc : JSVal :=
  vObj [("classes", vObj []), ("teachers", vObj []), ("settings", vObj []),
        ("metadata", vObj [("created", vStr "t0")])]

/-- Witness for C10 at a concrete valid document carrying
`metadata.created`. -/
theorem saveData_replaces_metadata_witness :
    validateDataStructure c10doc = true ∧
    (getField (saveData envAllFail st0 c10doc).doc "metadata" =
       some (vObj [("lastModified", vStr envAllFail.now), ("version", vStr "2.0"),
                   ("backupCount", jsAddOne (priorBackupCount c10doc))]) ∧
     getPath (saveData envAllFail st0 c10doc).doc ["metadata", "created"] = none ∧
     (saveData envAllFail st0 c10doc).state.memoryCache =
       some (jsonRound (saveData envAllFail st0 c10doc).doc) ∧
     (∀ k, k ≠ "metadata" →
        getField (saveData envAllFail st0 c10doc).doc k = getField c10doc k)) :=
  ⟨rfl, saveData_replaces_metadata envAllFail st0 c10doc rfl⟩

/-! ### Claim C5: primary-tier precedence on load -/

/-- C5: if the primary remote tier returns a document that passes
validation, the startup load adopts it as authoritative and mirrors it
into IndexedDB and localStorage, and the legacy tier is never consulted —
whatever the legacy tier or the prior local state would have provided. -/
theorem init_adopts_primary_first (env : Env) (st : SBState) (d : JSVal)
    (h1 : env.supLoad = RemoteLoad.ok d)
    (h2 : validateDataStructure d = true)
    (h3 : jsonRound d = d) :
    initializeDataStorage env st =
      ({ memoryCache := some d, db := some d, localStore := some d },
       [Tier.primary]) ∧
    Tier.legacy ∉ (initializeDataStorage env st).2 := by
  have hload : tryLoadFromSupabase env = some d := by
    simp [tryLoadFromSupabase, h1, h2]
  have hinit : initializeDataStorage env st =
      ({ memoryCache := some d, db := some d, localStore := some (jsonRound d) },
       [Tier.primary]) := by
    simp [initializeDataStorage, hload]
  rw [h3] at hinit
  refine ⟨hinit, ?_⟩
  rw [hinit]
  simp

/-- Environment for the C5 witness: the primary tier answers with a valid
default document while the legacy tier stands ready with a different
document that must not be used. -/
def envC5 : Env :=
  { supLoad := RemoteLoad.ok (createDefaultData "t0"),
    netLoad := RemoteLoad.ok (createDefaultData "other"),
    supSave := some false, netSave := some false, now := "t9" }

/-- Witness for C5 at a concrete environment and document. -/
theorem init_adopts_primary_first_witness :
    (envC5.supLoad = RemoteLoad.ok (createDefaultData "t0") ∧
     validateDataStructure (createDefaultData "t0") = true ∧
     jsonRound (createDefaultData "t0") = createDefaultData "t0") ∧
    (initializeDataStorage envC5 st0 =
       ({ memoryCache := some (createDefaultData "t0"),
          db := some (createDefaultData "t0"),
          localStore := some (createDefaultData "t0") }, [Tier.primary]) ∧
     Tier.legacy ∉ (initializeDataStorage envC5 st0).2) :=
  ⟨⟨rfl, rfl, by simp [createDefaultData, jsonRound, jsonRoundL]⟩,
   init_adopts_primary_first envC5 st0 (createDefaultData "t0") rfl rfl
     (by simp [createDefaultData, jsonRound, jsonRoundL])⟩

/-! ### Claim C6: default-document fallback -/

/-- C6: when both remote tiers fail and IndexedDB is empty, startup adopts
a freshly constructed default document — `getData()` afterwards returns
it, it is persisted into IndexedDB, and its shape is `classes = {}`,
`teachers = {teacher: starboard}`, `settings` present. -/
theorem init_defaults_when_all_fail (env : Env) (st : SBState)
    (h1 : env.supLoad = RemoteLoad.err) (h2 : env.netLoad = RemoteLoad.err)
    (h3 : st.db = none) :
    (getData env.now (initializeDataStorage env st).1).1 = createDefaultData env.now ∧
    (initializeDataStorage env st).1.db = some (createDefaultData env.now) ∧
    getField (createDefaultData env.now) "classes" = some (vObj []) ∧
    getField (createDefaultData env.now) "teachers" =
      some (vObj [("teacher", vStr "starboard")]) ∧
    (getField (createDefaultData env.now) "settings").isSome = true := by
  have hs : tryLoadFromSupabase env = none := by simp [tryLoadFromSupabase, h1]
  have hn : tryLoadFromNetlify env = none := by simp [tryLoadFromNetlify, h2]
  have hinit : (initializeDataStorage env st).1 =
      { st with memoryCache := some (createDefaultData env.now),
                db := some (createDefaultData env.now) } := by
    simp [initializeDataStorage, hs, hn, h3]
  have hm : (initializeDataStorage env st).1.memoryCache =
      some (createDefaultData env.now) := by rw [hinit]
  refine ⟨?_, ?_, rfl, rfl, rfl⟩
  · rw [getData_mem _ _ _ hm]
  · rw [hinit]

/-- Witness for C6 at the all-failing environment and the empty state. -/
theorem init_defaults_when_all_fail_witness :
    (envAllFail.supLoad = RemoteLoad.err ∧ envAllFail.netLoad = RemoteLoad.err ∧
     st0.db = none) ∧
    ((getData envAllFail.now (initializeDataStorage envAllFail st0).1).1 =
       createDefaultData envAllFail.now ∧
     (initializeDataStorage envAllFail st0).1.db =
       some (createDefaultData envAllFail.now) ∧
     getField (createDefaultData envAllFail.now) "classes" = some (vObj []) ∧
     getField (createDefaultData envAllFail.now) "teachers" =
       some (vObj [("teacher", vStr "starboard")]) ∧
     (getField (createDefaultData envAllFail.now) "settings").isSome = true) :=
  ⟨⟨rfl, rfl, rfl⟩, init_defaults_when_all_fail envAllFail st0 rfl rfl rfl⟩

/-! ### Claim C7: star decrement clamps at zero -/

theorem getPath_cons_congr {X Y : JSVal} {k : String} {ks : List String}
    (h : getField X k = getField Y k) : getPath X (k :: ks) = getPath Y (k :: ks) := by
  simp [getPath, h]

theorem saveData_keeps_num_path (env : Env) (st : SBState) (X : JSVal)
    (hmem : st.memoryCache = some X) (k : String) (ks : List String)
    (hk : k ≠ "metadata") (m : Int)
    (hw : getPath X (k :: ks) = some (vNum m)) :
    ∃ mc, (saveData env st X).state.memoryCache = some mc ∧
      getPath mc (k :: ks) = some (vNum m) := by
  cases hv : validateDataStructure X with
  | false =>
      refine ⟨X, ?_, hw⟩
      simp [saveData, hv, hmem]
  | true =>
      refine ⟨_, saveData_memoryCache env st X hv, ?_⟩
      rw [getPath_jsonRound]
      rw [getPath_cons_congr (getField_setField_ne X "metadata" k _ hk)]
      rw [hw]
      simp [jsonRound]

/-- C7: with a student present at `classes[cc].students[sid]` holding
numeric stars `s`, `modifyStars` with a decrement of magnitude `d` leaves
the authoritative copy holding `stars = max(0, s - d)` at that student —
never negative, and exactly 0 whenever `d > s`. -/
theorem modifyStars_clamped (env : Env) (st : SBState)
    (data cs cd studs student : JSVal) (cc sid : String) (s : Int) (d : Nat)
    (h0 : st.memoryCache = some data)
    (h1 : getField data "classes" = some cs)
    (h2 : getField cs cc = some cd)
    (h3 : getField cd "students" = some studs)
    (h4 : getField studs sid = some student)
    (h5 : truthy student = true)
    (h6 : getField student "stars" = some (vNum s)) :
    ∃ st9, modifyStars env st cc sid (-(d : Int)) = some st9 ∧
      ∃ mc, st9.memoryCache = some mc ∧
        getPath mc ["classes", cc, "students", sid, "stars"] =
          some (vNum (max 0 (s - (d : Int)))) ∧
        0 ≤ max 0 (s - (d : Int)) ∧
        ((s < (d : Int)) → max 0 (s - (d : Int)) = 0) := by
  have hgd : getData env.now st = (data, st) := getData_mem env.now st data h0
  have hchain : PathChain data ["classes", cc, "students", sid, "stars"] :=
    ⟨cs, h1, cd, h2, studs, h3, student, h4, vNum s, h6, trivial⟩
  have hnew : jsMathMax0 (jsPlus (getField student "stars") (-(d : Int))) =
      vNum (max 0 (s - (d : Int))) := by
    rw [h6]
    simp [jsPlus, jsMathMax0, sub_eq_add_neg]
  have hmut : getPath (setPath data ["classes", cc, "students", sid, "stars"]
        (vNum (max 0 (s - (d : Int)))))
        ["classes", cc, "students", sid, "stars"] =
      some (vNum (max 0 (s - (d : Int)))) :=
    getPath_setPath _ _ data hchain
  have hms : modifyStars env st cc sid (-(d : Int)) =
      some (saveData env
        { st with memoryCache := some (setPath data
            ["classes", cc, "students", sid, "stars"]
            (vNum (max 0 (s - (d : Int))))) }
        (setPath data ["classes", cc, "students", sid, "stars"]
          (vNum (max 0 (s - (d : Int)))))).state := by
    simp [modifyStars, hgd, h1, h2, h3, h4, h5, hnew]
  obtain ⟨mc, hmc, hpath⟩ := saveData_keeps_num_path env
    { st with memoryCache := some (setPath data
        ["classes", cc, "students", sid, "stars"]
        (vNum (max 0 (s - (d : Int))))) }
    (setPath data ["classes", cc, "students", sid, "stars"]
      (vNum (max 0 (s - (d : Int)))))
    rfl "classes" [cc, "students", sid, "stars"] (by decide)
    (max 0 (s - (d : Int))) hmut
  exact ⟨_, hms, mc, hmc, hpath, le_max_left 0 _,
    fun hlt => max_eq_left (by omega)⟩

/-- Concrete state for the C7 witness: one class `"Math"` with one student
`"s1"` holding 3 stars. -/
def c7st : SBState :=
  { memoryCache := some (vObj
      [("classes", vObj [("Math", vObj [("students", vObj
          [("s1", vObj [("name", vStr "Ada"), ("stars", vNum 3)])])])]),
       ("teachers", vObj []), ("settings", vObj [])]),
    db := none, localStore := none }

/-- Witness for C7: decrementing by 5 a student holding 3 stars yields 0. -/
theorem modifyStars_clamped_witness :
    ∃ st9, modifyStars envAllFail c7st "Math" "s1" (-((5 : Nat) : Int)) = some st9 ∧
      ∃ mc, st9.memoryCache = some mc ∧
        getPath mc ["classes", "Math", "students", "s1", "stars"] =
          some (vNum (max 0 ((3 : Int) - ((5 : Nat) : Int)))) ∧
        0 ≤ max 0 ((3 : Int) - ((5 : Nat) : Int)) ∧
        (((3 : Int) < ((5 : Nat) : Int)) → max 0 ((3 : Int) - ((5 : Nat) : Int)) = 0) :=
  modifyStars_clamped envAllFail c7st
    (vObj [("classes", vObj [("Math", vObj [("students", vObj
        [("s1", vObj [("name", vStr "Ada"), ("stars", vNum 3)])])])]),
      ("teachers", vObj []), ("settings", vObj [])])
    (vObj [("Math", vObj [("students", vObj
        [("s1", vObj [("name", vStr "Ada"), ("stars", vNum 3)])])])])
    (vObj [("students", vObj [("s1", vObj [("name", vStr "Ada"), ("stars", vNum 3)])])])
    (vObj [("s1", vObj [("name", vStr "Ada"), ("stars", vNum 3)])])
    (vObj [("name", vStr "Ada"), ("stars", vNum 3)])
    "Math" "s1" 3 5 rfl rfl rfl rfl rfl rfl rfl

/-! ### Claim C8: validator gating of load and save paths -/

theorem tryLoadFromSupabase_validated {env : Env} {d : JSVal}
    (h : tryLoadFromSupabase env = some d) : validateDataStructure d = true := by
  unfold tryLoadFromSupabase at h
  cases henv : env.supLoad with
  | err => rw [henv] at h; exact Option.noConfusion h
  | ok body =>
      rw [henv] at h
      by_cases hb : validateDataStructure body = true
      · have hb2 : body = d := by simpa [hb] using h
        rw [← hb2]; exact hb
      · simp [hb] at h

theorem tryLoadFromNetlify_validated {env : Env} {d : JSVal}
    (h : tryLoadFromNetlify env = some d) : validateDataStructure d = true := by
  unfold tryLoadFromNetlify at h
  cases henv : env.netLoad with
  | err => rw [henv] at h; exact Option.noConfusion h
  | ok body =>
      rw [henv] at h
      by_cases hb : validateDataStructure body = true
      · have hb2 : body = d := by simpa [hb] using h
        rw [← hb2]; exact hb
      · simp [hb] at h

/-- A document with only a `classes` object: it fails the Schema Validator
(no `teachers`, no `settings`) yet passes the server handlers' lightweight
check. -/
def c8doc : JSVal := vObj [("classes", vObj [])]

/-- C8 (counterexample): a document failing the Schema Validator is
persisted by both remote tier save handlers — each PUT branch stores it
wholesale and answers 200, refuting "invalid data is never persisted to
any storage tier, including via the remote tier save handlers". -/
theorem remote_put_accepts_invalid_cex :
    validateDataStructure c8doc = false ∧
    blobHandlerPut true c8doc none = (200, some c8doc) ∧
    supabaseHandlerPut true c8doc none = (200, some c8doc) :=
  ⟨rfl, rfl, rfl⟩

/-- C8 (amended): the Schema Validator gates the client's save path
(`saveData` rejects invalid documents with no state change) and every
client load path (a document adopted from a remote tier always passed
validation); the remote tier save handlers, however, apply only the
lightweight check "non-null object with a truthy `classes`", so a
schema-invalid document passing that check is persisted remotely with
status 200. -/
theorem validator_gating_amended (env : Env) (st : SBState) (D : JSVal)
    (store row : Option JSVal)
    (hInvalid : validateDataStructure D = false)
    (hLight : lightweightOk D = true) :
    (saveData env st D).ok = false ∧
    (saveData env st D).state = st ∧
    blobHandlerPut true D store = (200, some D) ∧
    supabaseHandlerPut true D row = (200, some D) ∧
    (∀ d9, tryLoadFromSupabase env = some d9 → validateDataStructure d9 = true) ∧
    (∀ d9, tryLoadFromNetlify env = some d9 → validateDataStructure d9 = true) := by
  refine ⟨?_, ?_, ?_, ?_, ?_, ?_⟩
  · simp [saveData, hInvalid]
  · simp [saveData, hInvalid]
  · simp [blobHandlerPut, hLight]
  · simp [supabaseHandlerPut, hLight]
  · intro d9 h9; exact tryLoadFromSupabase_validated h9
  · intro d9 h9; exact tryLoadFromNetlify_validated h9

/-- Witness for C8 (amended) at the concrete invalid document `c8doc`. -/
theorem validator_gating_amended_witness :
    (validateDataStructure c8doc = false ∧ lightweightOk c8doc = true) ∧
    ((saveData envAllFail st0 c8doc).ok = false ∧
     (saveData envAllFail st0 c8doc).state = st0 ∧
     blobHandlerPut true c8doc none = (200, some c8doc) ∧
     supabaseHandlerPut true c8doc none = (200, some c8doc) ∧
     (∀ d9, tryLoadFromSupabase envAllFail = some d9 →
        validateDataStructure d9 = true) ∧
     (∀ d9, tryLoadFromNetlify envAllFail = some d9 →
        validateDataStructure d9 = true)) :=
  ⟨⟨rfl, rfl⟩, validator_gating_amended envAllFail st0 c8doc none none rfl rfl⟩

/-! ### Claim C9: `getData` returns the authoritative copy by reference -/

/-- C9: when a memory cache is present, `getData()` returns the address of
the authoritative document itself — not a copy — and leaves the state
untouched; consequently a caller's in-place write through that address
changes the authoritative copy immediately, with no `saveData` involved. -/
theorem getData_returns_alias (now : String) (st : RefState) (r : Nat)
    (p : List String) (v : JSVal)
    (h : st.memRef = some r) (hr : r < st.heap.length) :
    (getDataR now st).1 = r ∧
    (getDataR now st).2 = st ∧
    authoritative (heapWrite st (getDataR now st).1 p v) =
      some (setPath (heapGet st.heap r) p v) := by
  have hfst : (getDataR now st).1 = r := by simp [getDataR, h]
  have hsnd : (getDataR now st).2 = st := by simp [getDataR, h]
  refine ⟨hfst, hsnd, ?_⟩
  rw [hfst]
  simp only [heapWrite, authoritative, h, Option.map_some', heapGet]
  exact congrArg some (getD_set_self _ _ _ hr)

/-- Concrete heap state for the C9 witness: one document cell, referenced
by the memory cache. -/
def refSt0 : RefState :=
  { heap := [createDefaultData "t0"], memRef := some 0,
    localStore := none, db := none }

/-- Witness for C9 at a concrete heap state and path. -/
theorem getData_returns_alias_witness :
    (refSt0.memRef = some 0 ∧ 0 < refSt0.heap.length) ∧
    ((getDataR "t0" refSt0).1 = 0 ∧ (getDataR "t0" refSt0).2 = refSt0 ∧
     authoritative (heapWrite refSt0 (getDataR "t0" refSt0).1 ["classes"] vNull) =
       some (setPath (heapGet refSt0.heap 0) ["classes"] vNull)) :=
  ⟨⟨rfl, by decide⟩,
   getData_returns_alias "t0" refSt0 0 ["classes"] vNull rfl (by decide)⟩
